import Mathlib

/-!
Shallow embedding of the prompt-marketplace backend (FastAPI + SQLModel),
covering the entitlement and watermarking subsystem and the payment
confirmation paths:

* `app/models.py`        — the relational schema (records and their declared columns)
* `app/auth.py`          — bearer authentication (`get_current_user`), together with
                           the behaviour of `fastapi.security.HTTPBearer` it delegates to
* `app/routes/prompts.py`   — `get_full_prompt` (GET /api/prompts/id/full)
* `app/routes/purchases.py` — `stripe_webhook` (POST /api/purchase/webhook)
* `app/routes/payments.py`  — `confirm_purchase` (POST /api/payments/confirm-purchase)

The record store (`app/db.py` is a thin session factory) is modelled as lists of
records; `session.get` by primary key and `select(...).where(...).first()` become
`List.find?`, and `session.add` + `session.commit` become list append.

Python is dynamically typed, and the routes reference columns that the schema in
`models.py` does not declare (for example `PromptWatermark.buyer_id` in
`routes/prompts.py`, or `prompt.user_id` in `routes/payments.py`).  Such an access
raises `AttributeError` at run time, which FastAPI surfaces as an HTTP 500 response
and which aborts the handler before any later store write.  The embedding makes
this explicit: each attribute access that the schema does not justify is modelled
by a lookup of the attribute name in the list of columns the class declares, and
the handler aborts with `Response.serverError` when the lookup fails.
-/

namespace PromptMarket

/-- Embeds `models.User` (models.py lines 5-10).  Only `id` and `email` are read by
the code modelled here; `password_hash`, `is_seller` and `stripe_account_id` are
never consulted by these routes and are omitted. -/
structure User where
  id : Nat
  email : String
deriving DecidableEq, Repr

/-- Embeds `models.Prompt` (models.py lines 12-24).  `created_at`, `views` and
`downloads` are presentation fields never read by the modelled routes and are
omitted; the remaining declared columns are kept. -/
structure Prompt where
  id : Nat
  title : String
  description : String
  content : String
  price_cents : Int
  owner_id : Nat
  is_active : Bool
  is_featured : Bool
  license_type : String
deriving DecidableEq, Repr

/-- The column names the `Prompt` class declares (models.py lines 12-24), used to
interpret dynamic attribute accesses in the routes.  Note there is no `user_id`
column: the owner column is `owner_id`. -/
def promptColumns : List String :=
  ["id", "title", "description", "content", "price_cents", "owner_id",
   "is_active", "is_featured", "license_type", "created_at", "views", "downloads"]

/-- Embeds `models.Purchase` (models.py lines 26-31).  `created_at` omitted.
The schema declares no uniqueness constraint on the pair
(`user_id`, `prompt_id`): duplicate rows for one pair are representable. -/
structure Purchase where
  id : Nat
  user_id : Nat
  prompt_id : Nat
  payment_id : String
deriving DecidableEq, Repr

/-- Embeds `models.PromptWatermark` (models.py lines 41-46).  `created_at` omitted.
The declared columns are `id`, `prompt_id`, `user_id`, `watermarked_content`,
`created_at` — there is no `buyer_id` column and no `token` column. -/
structure PromptWatermark where
  id : Nat
  prompt_id : Nat
  user_id : Nat
  watermarked_content : String
deriving DecidableEq, Repr

/-- The column names the `PromptWatermark` class declares (models.py lines 41-46). -/
def promptWatermarkColumns : List String :=
  ["id", "prompt_id", "user_id", "watermarked_content", "created_at"]

/-- Embeds `models.Analytics` (models.py lines 48-53).  `created_at` omitted. -/
structure Analytics where
  id : Nat
  prompt_id : Nat
  user_id : Nat
  event_type : String
deriving DecidableEq, Repr

/-- The persistent record store (`app/db.py` session over the SQLModel tables),
together with the identity provider's state: `tokens` maps each issued bearer
token to the user id it encodes (`auth.create_token` / `jwt.decode` against the
server secret, auth.py lines 19-21 and 25-26). -/
structure Store where
  users : List User
  prompts : List Prompt
  purchases : List Purchase
  watermarks : List PromptWatermark
  analytics : List Analytics
  tokens : List (String × Nat)
deriving DecidableEq, Repr

/-- Autoincrement primary key for a new row: one more than the largest id in use
(starting from 1 on an empty table), as SQLite assigns rowids. -/
def nextId (ids : List Nat) : Nat :=
  ids.foldr (fun i m => max (i + 1) m) 1

/-- The outcome of one HTTP request, as the framework reports it:
a 200 body, an `HTTPException` mapped to its status and detail, or an uncaught
Python exception, which FastAPI surfaces as an HTTP 500 response. -/
inductive Response where
  | okFull (id : Nat) (content : String)
  | okMessage (message : String)
  | httpError (status : Nat) (detail : String)
  | serverError (message : String)
deriving DecidableEq, Repr

/-- The HTTP status code of a response (200 for success bodies, 500 for an
uncaught exception). -/
def responseStatus : Response → Nat
  | .okFull _ _ => 200
  | .okMessage _ => 200
  | .httpError s _ => s
  | .serverError _ => 500

/-- A Python class-attribute access `C.name`, as performed when a `select(...)
.where(C.name == ...)` filter is built: succeeds exactly when the class declares
the column, raises `AttributeError` otherwise. -/
def pyClassAttr (columns : List String) (cls attr : String) : Except String String :=
  if columns.contains attr then .ok attr
  else .error ("AttributeError: type object " ++ cls ++ " has no attribute " ++ attr)

/-- The error message raised when `routes/prompts.py` line 152 evaluates
`PromptWatermark.buyer_id` to build its where-clause. -/
def watermarkAttrError : String :=
  "AttributeError: type object PromptWatermark has no attribute buyer_id"

/-- Embeds `get_full_prompt` (routes/prompts.py lines 132-179), after the
authentication dependency has produced `user`.

* lines 135-137: `session.get(Prompt, prompt_id)`; 404 when absent (the detail of
  a bare `HTTPException(status_code=404)` defaults to "Not Found").  The handler
  never reads `is_active`.
* lines 139-143: ownership and purchase check; 403 "Purchase required" when neither.
* lines 145-177: for a buyer who is not the owner, the handler builds
  `select(PromptWatermark).where(PromptWatermark.prompt_id == prompt_id,
  PromptWatermark.buyer_id == user.id)`.  Evaluating the second filter argument
  accesses the class attribute `buyer_id`, which `models.PromptWatermark` does not
  declare, so Python raises `AttributeError` there and the handler aborts before
  any query result, token generation, or store write.  The remainder of the branch
  (lines 154-177, which also reference the undeclared column `token`) is dead code
  under the declared schema; the arm below that would model it is guarded by the
  decidably-false column check and is unreachable.
* line 179: the 200 body is the prompt id and the content.

The store is returned alongside the response; no reachable path of this handler
writes to it. -/
def get_full_prompt (store : Store) (user : User) (prompt_id : Nat) :
    Response × Store :=
  match store.prompts.find? (fun p => p.id == prompt_id) with
  | none => (.httpError 404 "Not Found", store)
  | some p =>
    let owns := p.owner_id == user.id
    let bought := store.purchases.find?
      (fun r => r.user_id == user.id && r.prompt_id == prompt_id)
    if !(owns || bought.isSome) then
      (.httpError 403 "Purchase required", store)
    else
      let content := p.content
      if bought.isSome && !owns then
        match pyClassAttr promptWatermarkColumns "PromptWatermark" "prompt_id" with
        | .error e => (.serverError e, store)
        | .ok _ =>
          match pyClassAttr promptWatermarkColumns "PromptWatermark" "buyer_id" with
          | .error e => (.serverError e, store)
          | .ok _ => (.serverError "unreachable: lines 154-177", store)
      else
        (.okFull p.id content, store)

/-- The watermark token constructor of routes/prompts.py line 159:
`PM_` followed by the decimal buyer id, `_`, and the first eight hex digits of a
fresh `uuid.uuid4()`.  The random draw is the second argument. -/
def watermark_token (user_id : Nat) (uuidHex8 : String) : String :=
  "PM_" ++ toString user_id ++ "_" ++ uuidHex8

/-- The invisible wrapping of routes/prompts.py lines 163 and 176: the token
between two zero-width spaces (U+200B), written here with unicode escapes. -/
def watermark_wrap (token : String) : String :=
  "\u200B" ++ token ++ "\u200B"

/-- An inbound request's Authorization header: absent, or a scheme with its
credentials part (FastAPI splits the header value at the first space). -/
inductive AuthHeader where
  | absent
  | header (scheme : String) (credentials : String)
deriving DecidableEq, Repr

/-- Embeds `fastapi.security.HTTPBearer` with its default `auto_error=True`, as
instantiated at auth.py line 11 (`bearer = HTTPBearer()`): a missing header or an
empty scheme/credentials part is rejected with HTTP 403 "Not authenticated"; a
present header whose scheme is not `bearer` (case-insensitively) is rejected with
HTTP 403 "Invalid authentication credentials"; otherwise the credentials string is
handed to the dependent. -/
def httpBearer : AuthHeader → Except (Nat × String) String
  | .absent => .error (403, "Not authenticated")
  | .header scheme credentials =>
    if scheme == "" || credentials == "" then .error (403, "Not authenticated")
    else if scheme.toLower != "bearer" then
      .error (403, "Invalid authentication credentials")
    else .ok credentials

/-- Embeds `jwt.decode(token.credentials, SECRET, algorithms=[ALGO])` followed by
`int(payload["sub"])` (auth.py lines 25-26): a token decodes to the user id it was
issued for, and any other string fails verification. -/
def jwtDecode (store : Store) (token : String) : Option Nat :=
  (store.tokens.find? (fun e => e.1 == token)).map (fun e => e.2)

/-- Embeds `get_current_user` (auth.py lines 23-32), including the `HTTPBearer`
dependency it declares: resolve the header, decode the token (any failure is
caught and mapped to 401 "Invalid token"), then load the user row, failing with
401 "User not found" when absent. -/
def get_current_user (store : Store) (auth : AuthHeader) :
    Except (Nat × String) User :=
  match httpBearer auth with
  | .error e => .error e
  | .ok credentials =>
    match jwtDecode store credentials with
    | none => .error (401, "Invalid token")
    | some uid =>
      match store.users.find? (fun u => u.id == uid) with
      | none => .error (401, "User not found")
      | some u => .ok u

/-- The full GET /api/prompts/id/full pipeline: FastAPI resolves the
`Depends(get_current_user)` parameter first, so an authentication failure is
returned before the handler body — and hence before any prompt lookup,
entitlement decision, or store write — runs. -/
def handle_full_prompt (store : Store) (auth : AuthHeader) (prompt_id : Nat) :
    Response × Store :=
  match get_current_user store auth with
  | .error e => (.httpError e.1 e.2, store)
  | .ok user => get_full_prompt store user prompt_id

/-- A verified `checkout.session.completed` Stripe event, as read by the webhook:
the metadata user and prompt ids (converted with `int(...)`) and the checkout
session id `s["id"]`. -/
structure CheckoutCompleted where
  user_id : Nat
  prompt_id : Nat
  session_id : String
deriving DecidableEq, Repr

/-- Embeds `stripe_webhook` (routes/purchases.py lines 52-79) in the configured
case (`STRIPE_SECRET` set; with it unset the handler returns at line 55 without
touching the store), for an event whose signature verified and whose type is
`checkout.session.completed` (any other type falls through to `return` with no
write).  The handler unconditionally adds a `Purchase` row and an `Analytics`
row and commits: there is no lookup for an existing purchase of the same
(user, prompt) pair on this path. -/
def stripe_webhook (store : Store) (ev : CheckoutCompleted) : Store :=
  let purchase : Purchase :=
    { id := nextId (store.purchases.map (fun r => r.id)),
      user_id := ev.user_id, prompt_id := ev.prompt_id,
      payment_id := ev.session_id }
  let event : Analytics :=
    { id := nextId (store.analytics.map (fun a => a.id)),
      prompt_id := ev.prompt_id, user_id := ev.user_id,
      event_type := "purchase" }
  { store with purchases := store.purchases ++ [purchase],
               analytics := store.analytics ++ [event] }

/-- A payment intent as retrieved from Stripe by `confirm_purchase`
(routes/payments.py line 78): its id, status, the prompt id carried in its
metadata when present (the handler converts the metadata string with `int`,
elided here), and its amount. -/
structure PaymentIntent where
  id : String
  status : String
  metadata_prompt_id : Option Nat
  amount : Int
deriving DecidableEq, Repr

/-- Embeds `confirm_purchase` (routes/payments.py lines 68-126), after the
authenticated user and the retrieved payment intent are in hand.

* line 80: status other than "succeeded" is rejected with 400.
* lines 84-86: missing metadata prompt id is rejected with 400.
* lines 89-91: missing prompt is rejected with 404.
* lines 94-102: when a `Purchase` row for (user, prompt) already exists the
  handler returns "Purchase already confirmed" with no store write — the
  duplicate-confirmation no-op, taken before any of the broken code below.
* lines 105-121 (the fresh-purchase path): the handler constructs a `Purchase`
  with keyword arguments `amount_cents` and `stripe_payment_intent_id`, columns
  `models.Purchase` does not declare (table models skip validation and ignore
  unknown keywords, so the pending row would also lack its required
  `payment_id`), and then evaluates `prompt.user_id` at line 114 — `models.Prompt`
  declares `owner_id`, not `user_id`, so Python raises `AttributeError` there.
  The surrounding `try` catches only `stripe.error.StripeError`, so the request
  fails with an uncaught exception and `session.commit()` at line 121 never runs:
  the pending row is discarded and the store is unchanged.  The arm modelling the
  rest of the path is guarded by the decidably-false column check and is
  unreachable. -/
def confirm_purchase (store : Store) (user : User) (intent : PaymentIntent) :
    Response × Store :=
  if intent.status != "succeeded" then
    (.httpError 400 "Payment not completed", store)
  else
    match intent.metadata_prompt_id with
    | none => (.httpError 400 "Invalid payment intent", store)
    | some prompt_id =>
      match store.prompts.find? (fun p => p.id == prompt_id) with
      | none => (.httpError 404 "Prompt not found", store)
      | some _prompt =>
        match store.purchases.find?
            (fun r => r.user_id == user.id && r.prompt_id == prompt_id) with
        | some _ => (.okMessage "Purchase already confirmed", store)
        | none =>
          match pyClassAttr promptColumns "Prompt" "user_id" with
          | .error e => (.serverError e, store)
          | .ok _ => (.serverError "unreachable: lines 114-123", store)

/-- The number of `Purchase` rows stored for one (user, prompt) pair. -/
def countPurchases (store : Store) (user_id prompt_id : Nat) : Nat :=
  (store.purchases.filter
    (fun r => r.user_id == user_id && r.prompt_id == prompt_id)).length

/-- The number of `PromptWatermark` rows stored for one (prompt, buyer) pair
(`buyer` being the `user_id` column of models.py line 44). -/
def countWatermarks (store : Store) (prompt_id user_id : Nat) : Nat :=
  (store.watermarks.filter
    (fun w => w.prompt_id == prompt_id && w.user_id == user_id)).length

/-! Concrete fixtures, mirroring the seeded demo data shape (`app/seed.py`):
three users, an active prompt owned by the first user, an inactive prompt by the
same owner, and purchase rows.  `alice` owns prompt 1 and also holds a purchase
row for it; `bob` purchased prompt 1; `carol` holds no purchase of prompt 1. -/

/-- Demo user 1, the owner of the demo prompts. -/
def alice : User := { id := 1, email := "alice" }

/-- Demo user 2, a purchaser of prompt 1. -/
def bob : User := { id := 2, email := "bob" }

/-- Demo user 3, with no purchases of prompt 1. -/
def carol : User := { id := 3, email := "carol" }

/-- Demo prompt 1, active, owned by user 1. -/
def promptAlpha : Prompt :=
  { id := 1, title := "Alpha", description := "demo", content := "SECRET",
    price_cents := 500, owner_id := 1, is_active := true, is_featured := false,
    license_type := "personal" }

/-- Demo prompt 2, owned by user 1, with the active flag cleared. -/
def promptInactive : Prompt :=
  { promptAlpha with id := 2, title := "Hidden", content := "HIDDEN",
                     is_active := false }

/-- Demo prompt 3, active, owned by user 1. -/
def promptBeta : Prompt :=
  { promptAlpha with id := 3, title := "Beta", content := "BETA-SECRET" }

/-- The demo store: both purchase rows concern prompt 1 — one by buyer 2, and one
by the owner herself (user 1). -/
def baseStore : Store :=
  { users := [alice, bob, carol],
    prompts := [promptAlpha, promptInactive, promptBeta],
    purchases := [{ id := 1, user_id := 2, prompt_id := 1, payment_id := "dev_1" },
                  { id := 2, user_id := 1, prompt_id := 1, payment_id := "dev_1" }],
    watermarks := [], analytics := [],
    tokens := [("tok-alice", 1), ("tok-bob", 2), ("tok-carol", 3)] }

/-- The demo store extended with purchases of prompt 3 by users 3 and 2; no
watermark row exists for any pair. -/
def storeBeta : Store :=
  { baseStore with
    purchases := baseStore.purchases ++
      [{ id := 3, user_id := 3, prompt_id := 3, payment_id := "dev_3" },
       { id := 4, user_id := 2, prompt_id := 3, payment_id := "dev_3" }] }

/-- The demo store with no purchase rows at all. -/
def emptyPurchasesStore : Store := { baseStore with purchases := [] }

/-- A verified completed-checkout event for buyer 2 and prompt 1. -/
def webhookEvent : CheckoutCompleted :=
  { user_id := 2, prompt_id := 1, session_id := "cs_a1" }

/-- A succeeded payment intent whose metadata names prompt 1. -/
def intentAlpha : PaymentIntent :=
  { id := "pi_1", status := "succeeded", metadata_prompt_id := some 1,
    amount := 500 }

/-! Helper lemmas shared by the claim theorems. -/

/-- The first where-clause column of routes/prompts.py lines 149-154 exists on
the class. -/
theorem pyClassAttr_prompt_id :
    pyClassAttr promptWatermarkColumns "PromptWatermark" "prompt_id"
      = .ok "prompt_id" := rfl

/-- The second where-clause column does not exist: the access raises. -/
theorem pyClassAttr_buyer_id :
    pyClassAttr promptWatermarkColumns "PromptWatermark" "buyer_id"
      = .error watermarkAttrError := rfl

/-- No path of `get_full_prompt` writes to the store: the insert at
routes/prompts.py lines 166-173 is dead code (its branch raises first). -/
theorem get_full_prompt_snd (s : Store) (u : User) (pid : Nat) :
    (get_full_prompt s u pid).2 = s := by
  unfold get_full_prompt
  cases hf : s.prompts.find? (fun p => p.id == pid) with
  | none => rfl
  | some p =>
    dsimp only
    split
    · rfl
    · split
      · rfl
      · rfl

/-- Every rejection of the `HTTPBearer` scheme carries status 403. -/
theorem httpBearer_error_is_403 (a : AuthHeader) (e : Nat × String)
    (h : httpBearer a = .error e) : e.1 = 403 := by
  cases a with
  | absent =>
    injection h with h1
    rw [← h1]
  | header sch cred =>
    simp only [httpBearer] at h
    split_ifs at h
    · injection h with h1
      rw [← h1]
    · injection h with h1
      rw [← h1]

/-- Every rejection of `get_current_user` carries status 401 or 403. -/
theorem get_current_user_error_status (s : Store) (a : AuthHeader)
    (e : Nat × String) (h : get_current_user s a = .error e) :
    e.1 = 401 ∨ e.1 = 403 := by
  unfold get_current_user at h
  cases hb : httpBearer a with
  | error eb =>
    simp only [hb] at h
    right
    injection h with h1
    rw [← h1]
    exact httpBearer_error_is_403 a eb hb
  | ok c =>
    simp only [hb] at h
    cases hd : jwtDecode s c with
    | none =>
      simp only [hd] at h
      left
      injection h with h1
      rw [← h1]
    | some uid =>
      simp only [hd] at h
      cases hu : s.users.find? (fun u => u.id == uid) with
      | none =>
        simp only [hu] at h
        left
        injection h with h1
        rw [← h1]
      | some u =>
        simp only [hu] at h
        exact Except.noConfusion h

/-! The claim theorems. -/

/-- C1: the watermark get-or-create step of `get_full_prompt` does not return a
stored token idempotently — it raises `AttributeError` on every purchaser read
(its where-clause names the undeclared column `buyer_id`), so two sequential
reads of prompt 1 by buyer 2 both fail with an uncaught exception and no
`PromptWatermark` row for the pair (1, 2) ever exists. -/
theorem watermark_step_crashes_and_persists_nothing :
    (get_full_prompt baseStore bob 1).1 = .serverError watermarkAttrError ∧
    (get_full_prompt (get_full_prompt baseStore bob 1).2 bob 1).1
      = .serverError watermarkAttrError ∧
    countWatermarks
      (get_full_prompt (get_full_prompt baseStore bob 1).2 bob 1).2 1 2 = 0 :=
  ⟨rfl, rfl, rfl⟩

/-- C2 counterexample: a fully-anonymous request for the existing prompt 1 is
rejected by the authentication dependency with 403 "Not authenticated" — not the
claimed Forbidden with detail "Purchase required"; the entitlement check never
runs. -/
theorem anonymous_read_is_not_purchase_required :
    (handle_full_prompt emptyPurchasesStore .absent 1).1
      = .httpError 403 "Not authenticated" ∧
    (handle_full_prompt emptyPurchasesStore .absent 1).1
      ≠ .httpError 403 "Purchase required" :=
  ⟨rfl, by decide⟩

/-- C2 (amended): for an authenticated requester, when the prompt exists and the
requester neither owns it nor holds a purchase row for it, `get_full_prompt`
fails with 403 "Purchase required" and the store is unchanged; a fully-anonymous
request never reaches this check, being rejected by the authentication
dependency instead. -/
theorem authenticated_nonbuyer_denied_purchase_required :
    ∀ (s : Store) (u : User) (pid : Nat) (p : Prompt),
      s.prompts.find? (fun q => q.id == pid) = some p →
      (p.owner_id == u.id) = false →
      s.purchases.find? (fun r => r.user_id == u.id && r.prompt_id == pid)
        = none →
      get_full_prompt s u pid = (.httpError 403 "Purchase required", s) := by
  intro s u pid p hp ho hb
  simp [get_full_prompt, hp, ho, hb]

/-- C2 witness: authenticated user 3 (no purchase, not the owner) on prompt 1. -/
theorem authenticated_nonbuyer_denied_purchase_required_witness :
    get_full_prompt baseStore carol 1
      = (.httpError 403 "Purchase required", baseStore) :=
  authenticated_nonbuyer_denied_purchase_required baseStore carol 1 promptAlpha
    rfl rfl rfl

/-- C3: an owner read returns exactly the stored raw content with no watermark
appended and no store write, for every store — including stores where the owner
also holds a purchase row for the prompt (the watermark branch additionally
requires that the requester not be the owner). -/
theorem owner_read_returns_raw_content :
    ∀ (s : Store) (u : User) (pid : Nat) (p : Prompt),
      s.prompts.find? (fun q => q.id == pid) = some p →
      p.owner_id = u.id →
      get_full_prompt s u pid = (.okFull p.id p.content, s) := by
  intro s u pid p hp ho
  simp [get_full_prompt, hp, ho]

/-- C3 witness: in the demo store the owner (user 1) also holds a purchase row
for her own prompt 1, and her read returns the raw content unwatermarked. -/
theorem owner_read_returns_raw_content_witness :
    countPurchases baseStore 1 1 = 1 ∧
    get_full_prompt baseStore alice 1 = (.okFull 1 "SECRET", baseStore) :=
  ⟨rfl, owner_read_returns_raw_content baseStore alice 1 promptAlpha rfl rfl⟩

/-- C4 counterexample: prompt 2 has its active flag cleared, yet `get_full_prompt`
serves it to its owner — the handler never consults `is_active`, and the call
does not fail with 404. -/
theorem inactive_prompt_is_served :
    promptInactive.is_active = false ∧
    (get_full_prompt baseStore alice 2).1 = .okFull 2 "HIDDEN" ∧
    (get_full_prompt baseStore alice 2).1 ≠ .httpError 404 "Not Found" := by
  refine ⟨rfl, rfl, ?_⟩
  decide

/-- C4 (amended): `get_full_prompt` fails with 404 exactly when no prompt row
with the requested id exists; the active flag is not consulted, so an inactive
prompt is served like an active one. -/
theorem full_prompt_404_iff_prompt_missing :
    ∀ (s : Store) (u : User) (pid : Nat),
      (get_full_prompt s u pid).1 = .httpError 404 "Not Found" ↔
        s.prompts.find? (fun p => p.id == pid) = none := by
  intro s u pid
  unfold get_full_prompt
  cases hf : s.prompts.find? (fun p => p.id == pid) with
  | none => simp
  | some p =>
    dsimp only
    split
    · simp
    · split
      · simp [pyClassAttr_prompt_id, pyClassAttr_buyer_id]
      · simp

/-- C5 counterexample: delivering the same completed-checkout confirmation twice
on the webhook path creates two `Purchase` rows for the pair (user 2, prompt 1):
that path performs no duplicate check. -/
theorem duplicate_webhook_creates_duplicate_purchase :
    countPurchases
      (stripe_webhook (stripe_webhook emptyPurchasesStore webhookEvent)
        webhookEvent) 2 1 = 2 ∧
    1 < countPurchases
      (stripe_webhook (stripe_webhook emptyPurchasesStore webhookEvent)
        webhookEvent) 2 1 :=
  ⟨rfl, by decide⟩

/-- C5 (amended): a duplicate confirmation is a no-op on the confirm-purchase
path — when a `Purchase` row for the pair already exists, `confirm_purchase`
returns "Purchase already confirmed" with the store unchanged — but the stripe
webhook path appends a fresh `Purchase` row for its event's pair on every
delivery, so duplicate rows for one (user, prompt) pair can exist; the schema
declares no uniqueness over the pair. -/
theorem duplicate_confirmation_noop_only_on_confirm_path :
    (∀ (s : Store) (u : User) (intent : PaymentIntent) (pid : Nat) (p : Prompt)
       (r : Purchase),
      intent.status = "succeeded" →
      intent.metadata_prompt_id = some pid →
      s.prompts.find? (fun q => q.id == pid) = some p →
      s.purchases.find? (fun q => q.user_id == u.id && q.prompt_id == pid)
        = some r →
      confirm_purchase s u intent
        = (.okMessage "Purchase already confirmed", s)) ∧
    ∀ (s : Store) (ev : CheckoutCompleted),
      countPurchases (stripe_webhook s ev) ev.user_id ev.prompt_id
        = countPurchases s ev.user_id ev.prompt_id + 1 := by
  constructor
  · intro s u intent pid p r hst hmeta hp hr
    simp [confirm_purchase, hst, hmeta, hp, hr]
  · intro s ev
    simp [stripe_webhook, countPurchases, List.filter_append]

/-- C5 witness: confirming the already-recorded purchase of prompt 1 by buyer 2
is a no-op on the confirm-purchase path. -/
theorem duplicate_confirmation_noop_only_on_confirm_path_witness :
    confirm_purchase baseStore bob intentAlpha
      = (.okMessage "Purchase already confirmed", baseStore) :=
  duplicate_confirmation_noop_only_on_confirm_path.1 baseStore bob intentAlpha 1
    promptAlpha { id := 1, user_id := 2, prompt_id := 1, payment_id := "dev_1" }
    rfl rfl rfl rfl

/-- C6: `get_full_prompt` has a failure mode beyond NotFound and Forbidden: the
purchaser/watermark branch (user 3 reading purchased prompt 3) raises an
uncaught `AttributeError`, surfaced as HTTP 500. -/
theorem watermark_branch_raises_attribute_error :
    (get_full_prompt storeBeta carol 3).1 = .serverError watermarkAttrError ∧
    responseStatus (get_full_prompt storeBeta carol 3).1 = 500 :=
  ⟨rfl, rfl⟩

/-- C7: a purchaser read returns no watermarked content at all: buyer 2 reading
purchased prompt 3 gets the `AttributeError` failure, not the raw content with
one invisibly-wrapped token appended (nor any other 200 body). -/
theorem purchaser_read_returns_no_watermarked_content :
    (get_full_prompt storeBeta bob 3).1 = .serverError watermarkAttrError ∧
    ∀ t : String,
      (get_full_prompt storeBeta bob 3).1
        ≠ .okFull 3 ("BETA-SECRET" ++ watermark_wrap t) := by
  refine ⟨rfl, fun t h => ?_⟩
  rw [show (get_full_prompt storeBeta bob 3).1
        = .serverError watermarkAttrError from rfl] at h
  exact Response.noConfusion h

/-- C8: two first executions of the watermark step for the never-before-seen
pair (prompt 3, buyer 3) do not converge on a single token: the step performs no
store write on any reachable path (so every interleaving of the two executions
observes the same store), each execution raises `AttributeError` instead of
returning a token, and zero `PromptWatermark` rows are persisted — the
persisting code is an unguarded check-then-insert and is never reached. -/
theorem concurrent_first_watermark_reads_persist_no_record :
    (∀ (s : Store) (u : User) (pid : Nat), (get_full_prompt s u pid).2 = s) ∧
    (get_full_prompt storeBeta carol 3).1 = .serverError watermarkAttrError ∧
    (get_full_prompt (get_full_prompt storeBeta carol 3).2 carol 3).1
      = .serverError watermarkAttrError ∧
    countWatermarks
      (get_full_prompt (get_full_prompt storeBeta carol 3).2 carol 3).2 3 3
      = 0 :=
  ⟨get_full_prompt_snd, rfl, rfl, rfl⟩

/-- C9: the watermark token of routes/prompts.py line 159 combines the buyer id
with a random component and is injective in that component for a fixed buyer:
distinct random draws yield distinct tokens, so token generation is not a
deterministic function of the buyer identity alone. -/
theorem watermark_token_depends_on_random_component :
    ∀ uid : Nat,
      (∀ r1 r2 : String, r1 ≠ r2 →
        watermark_token uid r1 ≠ watermark_token uid r2) ∧
      ∃ r1 r2 : String, watermark_token uid r1 ≠ watermark_token uid r2 := by
  intro uid
  have hdata : ∀ x y : String, (x ++ y).data = x.data ++ y.data :=
    fun x y => rfl
  have hinj : ∀ r1 r2 : String,
      watermark_token uid r1 = watermark_token uid r2 → r1 = r2 := by
    intro r1 r2 h
    have h2 : ("PM_" ++ toString uid ++ "_").data ++ r1.data
        = ("PM_" ++ toString uid ++ "_").data ++ r2.data :=
      congrArg String.data h
    exact String.ext (List.append_cancel_left h2)
  refine ⟨fun r1 r2 hne hc => hne (hinj r1 r2 hc), "0", "1", fun hc => ?_⟩
  exact absurd (hinj "0" "1" hc) (by decide)

/-- C9 witness: two draws of the random component give user 2 distinct tokens. -/
theorem watermark_token_depends_on_random_component_witness :
    watermark_token 2 "00000000" ≠ watermark_token 2 "00000001" :=
  (watermark_token_depends_on_random_component 2).1 "00000000" "00000001"
    (by decide)

/-- C10 counterexample: a request with no Authorization header is rejected with
HTTP 403 (the bearer scheme's "Not authenticated"), not HTTP 401 — an anonymous
caller does observe a Forbidden status. -/
theorem missing_bearer_header_yields_403 :
    responseStatus (handle_full_prompt baseStore .absent 1).1 = 403 ∧
    (handle_full_prompt baseStore .absent 1).1
      = .httpError 403 "Not authenticated" :=
  ⟨rfl, rfl⟩

/-- C10 (amended): a request whose bearer authentication fails is rejected with
the authentication error — status 403 from the `HTTPBearer` scheme for a missing
or malformed header, 401 for a present-but-invalid token or unknown user —
before the handler body runs: the response is exactly the auth error, the store
is unchanged, and the authentication outcome does not depend on the prompt,
purchase, watermark, or analytics tables. -/
theorem failed_auth_rejected_before_handler :
    ∀ (s : Store) (a : AuthHeader) (pid : Nat) (e : Nat × String),
      get_current_user s a = .error e →
      handle_full_prompt s a pid = (.httpError e.1 e.2, s) ∧
      (e.1 = 401 ∨ e.1 = 403) ∧
      ∀ (ps : List Prompt) (qs : List Purchase) (ws : List PromptWatermark)
        (al : List Analytics),
        get_current_user
          { s with prompts := ps, purchases := qs, watermarks := ws,
                   analytics := al } a = .error e := by
  intro s a pid e h
  refine ⟨?_, get_current_user_error_status s a e h, fun ps qs ws al => ?_⟩
  · simp [handle_full_prompt, h]
  · exact h

/-- C10 witness: the anonymous request is rejected before the handler runs, with
the bearer scheme's 403. -/
theorem failed_auth_rejected_before_handler_witness :
    handle_full_prompt baseStore .absent 5
      = (.httpError 403 "Not authenticated", baseStore) :=
  (failed_auth_rejected_before_handler baseStore .absent 5
    (403, "Not authenticated") rfl).1

end PromptMarket
